import Mathlib

/-
Verification of the Sphinx documentation-build configuration module
(`docs/conf.py`) of the SAPPOROBDD2 repository.

The module is shallowly embedded as follows.  Module-level configuration
assignments become Lean constants with the same names.  The build hook
`run_doxygen` becomes a function from an explicit model of its external
world (the process environment, a filesystem of existing directories and
files, and the behaviour of the external `doxygen` executable) to the
trace of observable effects it performs, the resulting filesystem, and
the Python exception it lets escape, if any.
-/

namespace DocsConf

/-- The process environment, `os.environ`: an association list from
variable names to string values. -/
abbrev Env := List (String × String)

/-- Model of Python `os.environ.get(key, None)`: the value of the first
binding of `key`, or `none` when the variable is absent. -/
def os_environ_get (env : Env) (key : String) : Option String :=
  (env.find? fun kv => kv.fst == key).map fun kv => kv.snd

/-- Model of Python `posixpath.join` restricted to two arguments, as used
at `os.path.join(docs_dir, '_doxygen')`. -/
def os_path_join (a b : String) : String :=
  if b.data.head? = some '/' then b
  else if a = "" ∨ a.data.getLast? = some '/' then a ++ b
  else a ++ "/" ++ b

/-- The Python exceptions relevant to this module.  `osError` stands for
any `OSError` that is neither a `FileNotFoundError` raised by a missing
executable nor a `CalledProcessError` (for example the `FileExistsError`
raised by `os.makedirs` when the target path exists as a regular file,
or a `PermissionError` from `subprocess.run`). -/
inductive PyExc where
  | calledProcessError (returncode : Int)
  | fileNotFoundError
  | osError
deriving DecidableEq

/-- The filesystem state the hook can observe and modify: the sets of
paths that exist as directories and as regular files. -/
structure FS where
  dirs : List String
  files : List String
deriving DecidableEq

/-- Model of Python `os.makedirs(path, exist_ok=...)`: succeeds leaving
the filesystem unchanged when `path` is an existing directory and
`exist_ok` is set, raises an `OSError` when `path` is an existing
directory and `exist_ok` is not set or when `path` exists as a regular
file, and otherwise creates the directory. -/
def os_makedirs (fs : FS) (path : String) (exist_ok : Bool) : Except PyExc FS :=
  if path ∈ fs.dirs then
    if exist_ok then Except.ok fs else Except.error PyExc.osError
  else if path ∈ fs.files then Except.error PyExc.osError
  else Except.ok { fs with dirs := path :: fs.dirs }

/-- The possible behaviours of the external `doxygen` executable when
`subprocess.run` is asked to launch it: it runs and exits with a return
code, the executable is missing, or the launch fails with some other
operating-system error. -/
inductive DoxygenOutcome where
  | exits (returncode : Int)
  | notFound
  | osFailure
deriving DecidableEq

/-- Model of `subprocess.run(..., check=True)` applied to a process with
the given behaviour: the exception it raises, if any.  With `check=True`
a completed process with non-zero return code raises
`CalledProcessError`, a missing executable raises `FileNotFoundError`,
and any other launch failure raises the corresponding `OSError`. -/
def subprocess_run_result (dox : DoxygenOutcome) : Option PyExc :=
  match dox with
  | DoxygenOutcome.exits c =>
      if c = 0 then none else some (PyExc.calledProcessError c)
  | DoxygenOutcome.notFound => some PyExc.fileNotFoundError
  | DoxygenOutcome.osFailure => some PyExc.osError

/-- The messages printed by `run_doxygen`, one per `print` call in its
body. -/
inductive Msg where
  | successMsg
  | doxygenFailedWarning (returncode : Int)
  | doxygenNotFoundWarning
deriving DecidableEq

/-- Whether a printed message is one of the warnings (the two messages
whose text starts with `Warning:`). -/
def isWarning : Msg → Bool
  | Msg.successMsg => false
  | Msg.doxygenFailedWarning _ => true
  | Msg.doxygenNotFoundWarning => true

/-- The observable effects `run_doxygen` performs, in order. -/
inductive Event where
  | makedirs (path : String) (exist_ok : Bool)
  | subprocessRun (args : List String) (cwd : String) (check : Bool)
  | printed (msg : Msg)
deriving DecidableEq

/-- Whether an event is an invocation of `subprocess.run`. -/
def isSubprocessRun : Event → Bool
  | Event.subprocessRun _ _ _ => true
  | _ => false

/-- The exceptions matched by the two `except` clauses of `run_doxygen`:
`subprocess.CalledProcessError` and `FileNotFoundError`. -/
def caught : PyExc → Bool
  | PyExc.calledProcessError _ => true
  | PyExc.fileNotFoundError => true
  | PyExc.osError => false

/-- The hook `run_doxygen(app)` of `docs/conf.py`.  `env` is the process
environment, `fs` the filesystem, `docs_dir` stands for
`os.path.dirname(os.path.abspath(__file__))` (the directory containing
`conf.py`), and `dox` the behaviour of the external `doxygen`
executable.  The result is the trace of effects performed, the resulting
filesystem, and the exception propagated to the caller, if any.  The
body first computes `doxygen_dir`, calls `os.makedirs(doxygen_dir,
exist_ok=True)` outside any `try`, then inside `try` calls
`subprocess.run(['doxygen', 'Doxyfile'], cwd=docs_dir, check=True)` and
prints a success message; `except subprocess.CalledProcessError` and
`except FileNotFoundError` each print a warning and fall through. -/
def run_doxygen (env : Env) (fs : FS) (docs_dir : String) (dox : DoxygenOutcome) :
    List Event × FS × Option PyExc :=
  let doxygen_dir := os_path_join docs_dir "_doxygen"
  match os_makedirs fs doxygen_dir true with
  | Except.error e => ([Event.makedirs doxygen_dir true], fs, some e)
  | Except.ok fs2 =>
    let runEv := Event.subprocessRun ["doxygen", "Doxyfile"] docs_dir true
    match subprocess_run_result dox with
    | none =>
        ([Event.makedirs doxygen_dir true, runEv, Event.printed Msg.successMsg],
          fs2, none)
    | some (PyExc.calledProcessError c) =>
        ([Event.makedirs doxygen_dir true, runEv,
          Event.printed (Msg.doxygenFailedWarning c)], fs2, none)
    | some PyExc.fileNotFoundError =>
        ([Event.makedirs doxygen_dir true, runEv,
          Event.printed Msg.doxygenNotFoundWarning], fs2, none)
    | some PyExc.osError =>
        ([Event.makedirs doxygen_dir true, runEv], fs2, some PyExc.osError)

/-- The callbacks of the module that can be registered with the Sphinx
application. -/
inductive Hook where
  | runDoxygen
deriving DecidableEq

/-- The side effects `setup(app)` can perform on the Sphinx application. -/
inductive AppEffect where
  | connect (event : String) (callback : Hook)
deriving DecidableEq

/-- The `setup(app)` function of `docs/conf.py`, as the list of effects
it performs on the application, in order. -/
def setup : List AppEffect :=
  [AppEffect.connect "builder-inited" Hook.runDoxygen]

/-- Module-level assignment `project = 'SAPPOROBDD 2.0'`. -/
def project : String := "SAPPOROBDD 2.0"

/-- Module-level assignment `copyright = '2024, SAPPOROBDD Team'`. -/
def copyright : String := "2024, SAPPOROBDD Team"

/-- Module-level assignment `author = 'SAPPOROBDD Team'`. -/
def author : String := "SAPPOROBDD Team"

/-- Module-level assignment `release = '2.0.0'`. -/
def release : String := "2.0.0"

/-- Module-level assignment `version = '2.0'`. -/
def version : String := "2.0"

/-- Module-level assignment of the `extensions` list. -/
def extensions : List String :=
  ["breathe", "sphinx.ext.autodoc", "sphinx.ext.viewcode",
    "sphinx.ext.todo", "sphinx.ext.mathjax"]

/-- Module-level assignment `templates_path = ['_templates']`. -/
def templates_path : List String := ["_templates"]

/-- Module-level assignment of the `exclude_patterns` list. -/
def exclude_patterns : List String := ["_build", "Thumbs.db", ".DS_Store"]

/-- Module-level assignment `language = 'ja'`. -/
def language : String := "ja"

/-- Module-level assignment `html_theme = 'sphinx_rtd_theme'`. -/
def html_theme : String := "sphinx_rtd_theme"

/-- Module-level assignment `html_static_path = ['_static']`. -/
def html_static_path : List String := ["_static"]

/-- Module-level assignment
`read_the_docs_build = os.environ.get('READTHEDOCS', None) == 'True'`,
as a function of the process environment read at module evaluation. -/
def read_the_docs_build (env : Env) : Bool :=
  os_environ_get env "READTHEDOCS" == some "True"

/-- Module-level assignment of the `breathe_projects` dictionary. -/
def breathe_projects : List (String × String) := [("SAPPOROBDD2", "_doxygen/xml")]

/-- Module-level assignment `breathe_default_project = 'SAPPOROBDD2'`. -/
def breathe_default_project : String := "SAPPOROBDD2"

/-- Module-level assignment of the `breathe_default_members` tuple. -/
def breathe_default_members : List String := ["members", "undoc-members"]

/-- Module-level assignment `todo_include_todos = True`. -/
def todo_include_todos : Bool := true

/-- Equality of `os.makedirs` results is decidable, so concrete runs of
the hook can be checked by evaluation. -/
instance : DecidableEq (Except PyExc FS) := fun a b =>
  match a, b with
  | Except.ok x, Except.ok y =>
      if h : x = y then Decidable.isTrue (by rw [h]) else Decidable.isFalse (by simp [h])
  | Except.ok _, Except.error _ => Decidable.isFalse (by simp)
  | Except.error _, Except.ok _ => Decidable.isFalse (by simp)
  | Except.error x, Except.error y =>
      if h : x = y then Decidable.isTrue (by rw [h]) else Decidable.isFalse (by simp [h])

/-- Claim C1: in every invocation of `run_doxygen` in which the doxygen
executable is missing (`FileNotFoundError`) or exits with a non-zero
status (`CalledProcessError`), the hook catches the exception, prints a
warning, and returns normally without raising any error to its caller. -/
theorem run_doxygen_swallows_doxygen_errors (env : Env) (fs fs2 : FS) (docs_dir : String)
    (dox : DoxygenOutcome)
    (hmk : os_makedirs fs (os_path_join docs_dir "_doxygen") true = Except.ok fs2)
    (hbad : dox = DoxygenOutcome.notFound ∨ ∃ c, c ≠ 0 ∧ dox = DoxygenOutcome.exits c) :
    (run_doxygen env fs docs_dir dox).2.2 = none ∧
      ∃ m, isWarning m = true ∧ Event.printed m ∈ (run_doxygen env fs docs_dir dox).1 := by
  rcases hbad with h | ⟨c, hc, h⟩
  · subst h
    refine ⟨by simp [run_doxygen, hmk, subprocess_run_result],
      Msg.doxygenNotFoundWarning, rfl, ?_⟩
    simp [run_doxygen, hmk, subprocess_run_result]
  · subst h
    refine ⟨by simp [run_doxygen, hmk, subprocess_run_result, hc],
      Msg.doxygenFailedWarning c, rfl, ?_⟩
    simp [run_doxygen, hmk, subprocess_run_result, hc]

/-- Witness for C1: a concrete run with an empty filesystem and a
missing doxygen executable returns normally and prints a warning. -/
theorem run_doxygen_swallows_doxygen_errors_witness :
    os_makedirs (FS.mk [] []) (os_path_join "/docs" "_doxygen") true =
        Except.ok (FS.mk ["/docs/_doxygen"] []) ∧
      (run_doxygen [] (FS.mk [] []) "/docs" DoxygenOutcome.notFound).2.2 = none ∧
      ∃ m, isWarning m = true ∧
        Event.printed m ∈ (run_doxygen [] (FS.mk [] []) "/docs" DoxygenOutcome.notFound).1 :=
  ⟨by decide,
    run_doxygen_swallows_doxygen_errors [] (FS.mk [] []) (FS.mk ["/docs/_doxygen"] [])
      "/docs" DoxygenOutcome.notFound (by decide) (Or.inl rfl)⟩

/-- Claim C2: every invocation of `run_doxygen` creates the output
directory (the `_doxygen` subdirectory of the directory containing
`conf.py`) when it is absent, and when the directory already exists the
creation step succeeds without error, leaving the filesystem unchanged
and letting the hook proceed to the doxygen invocation. -/
theorem run_doxygen_creates_output_dir (env : Env) (fs : FS) (docs_dir : String)
    (dox : DoxygenOutcome) :
    (os_path_join docs_dir "_doxygen" ∉ fs.dirs → os_path_join docs_dir "_doxygen" ∉ fs.files →
      os_path_join docs_dir "_doxygen" ∈ (run_doxygen env fs docs_dir dox).2.1.dirs) ∧
    (os_path_join docs_dir "_doxygen" ∈ fs.dirs →
      os_makedirs fs (os_path_join docs_dir "_doxygen") true = Except.ok fs ∧
        Event.subprocessRun ["doxygen", "Doxyfile"] docs_dir true ∈
          (run_doxygen env fs docs_dir dox).1) := by
  constructor
  · intro h1 h2
    have hmk : os_makedirs fs (os_path_join docs_dir "_doxygen") true =
        Except.ok { fs with dirs := os_path_join docs_dir "_doxygen" :: fs.dirs } := by
      simp [os_makedirs, h1, h2]
    rcases hr : subprocess_run_result dox with _ | e
    · simp [run_doxygen, hmk, hr]
    · cases e <;> simp [run_doxygen, hmk, hr]
  · intro h
    have hmk : os_makedirs fs (os_path_join docs_dir "_doxygen") true = Except.ok fs := by
      simp [os_makedirs, h]
    refine ⟨hmk, ?_⟩
    rcases hr : subprocess_run_result dox with _ | e
    · simp [run_doxygen, hmk, hr]
    · cases e <;> simp [run_doxygen, hmk, hr]

/-- Witness for C2: on an empty filesystem the directory is created; on
a filesystem already containing it the creation step succeeds and the
doxygen invocation still happens. -/
theorem run_doxygen_creates_output_dir_witness :
    (os_path_join "/docs" "_doxygen" ∈
        (run_doxygen [] (FS.mk [] []) "/docs" (DoxygenOutcome.exits 0)).2.1.dirs) ∧
    (os_makedirs (FS.mk ["/docs/_doxygen"] []) (os_path_join "/docs" "_doxygen") true =
        Except.ok (FS.mk ["/docs/_doxygen"] []) ∧
      Event.subprocessRun ["doxygen", "Doxyfile"] "/docs" true ∈
        (run_doxygen [] (FS.mk ["/docs/_doxygen"] []) "/docs" (DoxygenOutcome.exits 0)).1) :=
  ⟨(run_doxygen_creates_output_dir [] (FS.mk [] []) "/docs" (DoxygenOutcome.exits 0)).1
      (by decide) (by decide),
    (run_doxygen_creates_output_dir [] (FS.mk ["/docs/_doxygen"] []) "/docs"
      (DoxygenOutcome.exits 0)).2 (by decide)⟩

/-- Counterexample to C3 as stated: in an invocation where the path
`_doxygen` exists as a regular file, `os.makedirs` raises before the
subprocess step, so doxygen is invoked zero times, not exactly once. -/
theorem run_doxygen_zero_invocations_on_mkdir_failure :
    (run_doxygen [] (FS.mk [] ["/docs/_doxygen"]) "/docs" (DoxygenOutcome.exits 0)).1.countP
        isSubprocessRun = 0 ∧
      ¬ ((run_doxygen [] (FS.mk [] ["/docs/_doxygen"]) "/docs"
          (DoxygenOutcome.exits 0)).1.countP isSubprocessRun = 1) := by
  constructor <;> decide

/-- Claim C3, amended: in every invocation of `run_doxygen` in which the
directory-creation step does not raise, the external doxygen executable
is invoked exactly once, with the working directory set to the directory
containing `conf.py` and the fixed config filename `Doxyfile` as its
sole argument. -/
theorem run_doxygen_single_invocation_after_mkdir (env : Env) (fs fs2 : FS)
    (docs_dir : String) (dox : DoxygenOutcome)
    (hmk : os_makedirs fs (os_path_join docs_dir "_doxygen") true = Except.ok fs2) :
    (run_doxygen env fs docs_dir dox).1.filter isSubprocessRun =
      [Event.subprocessRun ["doxygen", "Doxyfile"] docs_dir true] := by
  rcases hr : subprocess_run_result dox with _ | e
  · simp [run_doxygen, hmk, hr, isSubprocessRun, List.filter]
  · cases e <;> simp [run_doxygen, hmk, hr, isSubprocessRun, List.filter]

/-- Witness for the amended C3 at a concrete empty filesystem. -/
theorem run_doxygen_single_invocation_after_mkdir_witness :
    os_makedirs (FS.mk [] []) (os_path_join "/docs" "_doxygen") true =
        Except.ok (FS.mk ["/docs/_doxygen"] []) ∧
      (run_doxygen [] (FS.mk [] []) "/docs" DoxygenOutcome.notFound).1.filter isSubprocessRun =
        [Event.subprocessRun ["doxygen", "Doxyfile"] "/docs" true] :=
  ⟨by decide,
    run_doxygen_single_invocation_after_mkdir [] (FS.mk [] []) (FS.mk ["/docs/_doxygen"] [])
      "/docs" DoxygenOutcome.notFound (by decide)⟩

/-- Claim C4: the `setup` function performs exactly one side effect on
the application: connecting the `run_doxygen` hook to the
`builder-inited` build-lifecycle event. -/
theorem setup_connects_single_hook :
    setup = [AppEffect.connect "builder-inited" Hook.runDoxygen] ∧ setup.length = 1 :=
  ⟨rfl, rfl⟩

/-- Claim C5: `read_the_docs_build` is true exactly when the environment
variable `READTHEDOCS` is present with the string value `True`, and
false otherwise, including when the variable is absent. -/
theorem read_the_docs_build_spec (env : Env) :
    (read_the_docs_build env = true ↔ os_environ_get env "READTHEDOCS" = some "True") ∧
      (os_environ_get env "READTHEDOCS" = none → read_the_docs_build env = false) := by
  constructor
  · simp [read_the_docs_build]
  · intro h
    simp [read_the_docs_build, h]

/-- Witness for C5: a concrete environment carrying
`READTHEDOCS=True` yields `true`; the empty environment yields
`false`. -/
theorem read_the_docs_build_spec_witness :
    (read_the_docs_build [("READTHEDOCS", "True")] = true ↔
        os_environ_get [("READTHEDOCS", "True")] "READTHEDOCS" = some "True") ∧
      os_environ_get [] "READTHEDOCS" = none ∧ read_the_docs_build [] = false :=
  ⟨(read_the_docs_build_spec [("READTHEDOCS", "True")]).1,
    by decide, (read_the_docs_build_spec []).2 (by decide)⟩

/-- Claim C6: the static configuration values match their declared
literals. -/
theorem static_config_literals :
    project = "SAPPOROBDD 2.0" ∧ release = "2.0.0" ∧ version = "2.0" ∧
      language = "ja" ∧ html_theme = "sphinx_rtd_theme" ∧
      breathe_default_project = "SAPPOROBDD2" ∧
      extensions = ["breathe", "sphinx.ext.autodoc", "sphinx.ext.viewcode",
        "sphinx.ext.todo", "sphinx.ext.mathjax"] :=
  ⟨rfl, rfl, rfl, rfl, rfl, rfl, rfl⟩

/-- Claim C7: an exception raised by `os.makedirs` propagates out of
`run_doxygen` unhandled; an exception raised by the guarded subprocess
invocation is swallowed exactly when it is one of the two kinds named by
the `except` clauses; and those two kinds are precisely
`subprocess.CalledProcessError` and `FileNotFoundError`. -/
theorem run_doxygen_exception_discipline (env : Env) (fs : FS) (docs_dir : String)
    (dox : DoxygenOutcome) :
    (∀ e, os_makedirs fs (os_path_join docs_dir "_doxygen") true = Except.error e →
      (run_doxygen env fs docs_dir dox).2.2 = some e) ∧
    (∀ fs2 e, os_makedirs fs (os_path_join docs_dir "_doxygen") true = Except.ok fs2 →
      subprocess_run_result dox = some e →
      ((run_doxygen env fs docs_dir dox).2.2 = none ↔ caught e = true)) ∧
    (∀ e, caught e = true ↔
      (∃ c, e = PyExc.calledProcessError c) ∨ e = PyExc.fileNotFoundError) := by
  refine ⟨?_, ?_, ?_⟩
  · intro e h
    simp [run_doxygen, h]
  · intro fs2 e hmk hr
    cases e <;> simp [run_doxygen, hmk, hr, caught]
  · intro e
    cases e <;> simp [caught]

/-- Witness for C7: with `_doxygen` existing as a regular file the
makedirs error escapes the hook; with makedirs succeeding, an `OSError`
from the subprocess launch is not caught. -/
theorem run_doxygen_exception_discipline_witness :
    (os_makedirs (FS.mk [] ["/docs/_doxygen"]) (os_path_join "/docs" "_doxygen") true =
        Except.error PyExc.osError ∧
      (run_doxygen [] (FS.mk [] ["/docs/_doxygen"]) "/docs" DoxygenOutcome.osFailure).2.2 =
        some PyExc.osError) ∧
    ((run_doxygen [] (FS.mk [] []) "/docs" DoxygenOutcome.osFailure).2.2 = none ↔
      caught PyExc.osError = true) :=
  ⟨⟨by decide,
      (run_doxygen_exception_discipline [] (FS.mk [] ["/docs/_doxygen"]) "/docs"
        DoxygenOutcome.osFailure).1 PyExc.osError (by decide)⟩,
    (run_doxygen_exception_discipline [] (FS.mk [] []) "/docs" DoxygenOutcome.osFailure).2.1
      (FS.mk ["/docs/_doxygen"] []) PyExc.osError (by decide) (by decide)⟩

/-- Claim C8: the behaviour of `run_doxygen` is independent of the
`READTHEDOCS` environment variable: two executions whose environments
agree on every variable other than `READTHEDOCS` perform the same
effects, produce the same filesystem, and raise the same exception. -/
theorem run_doxygen_independent_of_readthedocs (env1 env2 : Env) (fs : FS)
    (docs_dir : String) (dox : DoxygenOutcome)
    (h : ∀ k, k ≠ "READTHEDOCS" → os_environ_get env1 k = os_environ_get env2 k) :
    run_doxygen env1 fs docs_dir dox = run_doxygen env2 fs docs_dir dox := rfl

/-- Witness for C8: an environment with `READTHEDOCS=True` and the
empty environment give identical runs. -/
theorem run_doxygen_independent_of_readthedocs_witness :
    run_doxygen [("READTHEDOCS", "True")] (FS.mk [] []) "/docs" DoxygenOutcome.notFound =
      run_doxygen [] (FS.mk [] []) "/docs" DoxygenOutcome.notFound := by
  have hk : ∀ k, k ≠ "READTHEDOCS" →
      os_environ_get [("READTHEDOCS", "True")] k = os_environ_get [] k := by
    intro k hkne
    have hb : (("READTHEDOCS" : String) == k) = false :=
      beq_eq_false_iff_ne.mpr fun hh => hkne hh.symm
    simp [os_environ_get, List.find?, hb]
  exact run_doxygen_independent_of_readthedocs [("READTHEDOCS", "True")] []
    (FS.mk [] []) "/docs" DoxygenOutcome.notFound hk

/-- Claim C9: in every execution of `run_doxygen` the directory-creation
call is the first effect, preceding any subprocess invocation, and when
the directory-creation call raises, the subprocess is never invoked. -/
theorem run_doxygen_mkdir_precedes_subprocess (env : Env) (fs : FS) (docs_dir : String)
    (dox : DoxygenOutcome) :
    (run_doxygen env fs docs_dir dox).1.head? =
        some (Event.makedirs (os_path_join docs_dir "_doxygen") true) ∧
      (∀ e, os_makedirs fs (os_path_join docs_dir "_doxygen") true = Except.error e →
        (run_doxygen env fs docs_dir dox).1.countP isSubprocessRun = 0) := by
  constructor
  · rcases hmk : os_makedirs fs (os_path_join docs_dir "_doxygen") true with e | fs2
    · simp [run_doxygen, hmk]
    · rcases hr : subprocess_run_result dox with _ | e2
      · simp [run_doxygen, hmk, hr]
      · cases e2 <;> simp [run_doxygen, hmk, hr]
  · intro e h
    simp [run_doxygen, h, isSubprocessRun]

/-- Witness for C9: a concrete run whose makedirs call raises performs
no subprocess invocation. -/
theorem run_doxygen_mkdir_precedes_subprocess_witness :
    os_makedirs (FS.mk [] ["/docs/_doxygen"]) (os_path_join "/docs" "_doxygen") true =
        Except.error PyExc.osError ∧
      (run_doxygen [] (FS.mk [] ["/docs/_doxygen"]) "/docs" DoxygenOutcome.notFound).1.countP
        isSubprocessRun = 0 :=
  ⟨by decide,
    (run_doxygen_mkdir_precedes_subprocess [] (FS.mk [] ["/docs/_doxygen"]) "/docs"
      DoxygenOutcome.notFound).2 PyExc.osError (by decide)⟩

end DocsConf
